import Mathlib

/-!
Verification of the pattern-matching core of the `macros` repository
(`macros-utils/src/lib.rs`, `macros-utils/src/pattern.rs`,
`macros-utils/src/error.rs`, `macros-utils/src/tokens.rs`).

The Rust code is shallowly embedded: `proc_macro2::Span` is an abstract
position (`Nat`), machine integers are `Nat`, Rust `Result` is `Except`,
in-place mutation of a `MacroStream` becomes explicit state passing, and
the possibly non-terminating matching loops take a fuel argument (`none`
means the fuel ran out, i.e. the Rust code would still be looping).
A Rust `panic!` is modelled as an explicit `panicked` outcome, and a Rust
`return` out of the middle of `Pattern::match_pattern` (which skips the
validator post-processing at the end of the function) is modelled by an
`early : Bool` flag on the result of `match_pattern_core`.
-/

namespace Macros

/-- Abstract source position (`proc_macro2::Span`); positions never influence
control flow, only error values, so a bare `Nat` suffices. -/
abbrev Span := Nat

/-- Rust `Span::call_site()` (`macros-utils/src/lib.rs::call_site`). -/
def call_site : Span := 0

/-- Rust `macros-utils/src/tokens.rs::Delimiter`. -/
inductive Delimiter where
  | parenthesis
  | brace
  | bracket
  | none
deriving DecidableEq, Repr

/-- Rust `proc_macro2::Spacing` of a punctuation token. -/
inductive Spacing where
  | alone
  | joint
deriving DecidableEq, Repr

/-- Rust `macros-utils/src/tokens.rs::LiteralKind` (the `u8` hash counts become `Nat`). -/
inductive LiteralKind where
  | byte
  | char
  | integer
  | float
  | str
  | strRaw (hashtags : Nat)
  | byteStr
  | byteStrRaw (hashtags : Nat)
deriving DecidableEq, Repr

mutual
/-- Rust `macros-utils/src/tokens.rs::Token`.  The `token : Option<proc_macro2::Literal>`
field of the `Literal` variant caches the original lexer object; it is ignored by
`PartialEq` and by all matching code, so it is omitted from the embedding. -/
inductive Token where
  | ident (name : String) (span : Span)
  | group (delimiter : Delimiter) (stream : MacroStream) (span : Span)
  | literal (kind : LiteralKind) (value : String) (span : Span) (suffix : String)
  | punctuation (value : Char) (spacing : Spacing) (span : Span)

/-- Rust `macros-utils/src/lib.rs::MacroStream`: a token queue (`VecDeque<Token>`)
together with the `popped` counter. -/
inductive MacroStream where
  | mk (stream : List Token) (popped : Nat)
end

/-- The token queue of a stream. -/
def MacroStream.stream : MacroStream → List Token
  | .mk s _ => s

/-- Rust `MacroStream::popped` — the consumed-counter. -/
def MacroStream.popped : MacroStream → Nat
  | .mk _ p => p

/-- Rust `Token::span`. -/
def Token.span : Token → Span
  | .ident _ sp => sp
  | .group _ _ sp => sp
  | .literal _ _ sp _ => sp
  | .punctuation _ _ sp => sp

mutual
/-- The custom `PartialEq for Token` (`tokens.rs` lines 118-160): structural,
ignoring spans.  Group tokens compare delimiter and stream, where streams use
the derived `PartialEq for MacroStream` (elementwise tokens plus the `popped`
field). -/
def token_eq : Token → Token → Bool
  | .ident n _, .ident n' _ => n == n'
  | .group d s _, .group d' s' _ => d == d' && stream_eq s s'
  | .literal k v _ suf, .literal k' v' _ suf' => k == k' && v == v' && suf == suf'
  | .punctuation v _ _, .punctuation v' _ _ => v == v'
  | _, _ => false

/-- Derived `PartialEq for MacroStream` (`lib.rs` line 21): compares the token
queue elementwise with `token_eq` and the `popped` counters. -/
def stream_eq : MacroStream → MacroStream → Bool
  | .mk ts p, .mk ts' p' => token_list_eq ts ts' && p == p'

/-- Elementwise `PartialEq` of `VecDeque<Token>`. -/
def token_list_eq : List Token → List Token → Bool
  | [], [] => true
  | t :: ts, t' :: ts' => token_eq t t' && token_list_eq ts ts'
  | _, _ => false
end

/-- Rust `macros-utils/src/error.rs::ParseErrorKind` (only the kinds reachable from
the pattern/matching code are carried; the literal-lexing kinds are not needed
by any claim and are collapsed into `unknownLiteral`). -/
inductive ParseErrorKind where
  | unknownLiteral (s : String)
  | unexpectedEndOfInput (msg : String)
  | expected (expected : Token) (actual : Token)
  | noMatchingChoice
  | expectedGroup (delimiter : Delimiter)
  | inputTooLong
  | expectedRepetition
  | invalidValidatorPosition
  | validatorFailed (msg : String)

/-- Rust `macros-utils/src/error.rs::ParseError`; the `level` field is always
`Level::Error` and is omitted. -/
structure ParseError where
  error : ParseErrorKind
  span : Span

/-- Rust `ParseError::new(span, error)`. -/
def ParseError.new (span : Span) (error : ParseErrorKind) : ParseError :=
  { error := error, span := span }

/-- Rust `ParseError::call_site(error)`. -/
def ParseError.at_call_site (error : ParseErrorKind) : ParseError :=
  { error := error, span := call_site }

/-- Rust `ParseError::unexpected_end_of_input`: appends `msg` to the message when the
kind is `UnexpectedEndOfInput`, otherwise leaves the error alone. -/
def ParseError.unexpected_end_of_input (e : ParseError) (msg : String) : ParseError :=
  match e.error with
  | .unexpectedEndOfInput s => { e with error := .unexpectedEndOfInput (s ++ msg) }
  | _ => e

/-- Rust `macros-utils/src/error.rs::MacrosError`; the `User` variant carries a boxed
`dyn Error`, modelled by its message. -/
inductive MacrosError where
  | parse (e : ParseError)
  | user (msg : String)

/-- Rust `macros-utils/src/lib.rs::Match` — the capture tree. -/
inductive Match where
  | one (t : Token)
  | many (ms : List Match)
  | none

/-- Rust `macros-utils/src/lib.rs::ParserOutput` — the result-sink capability.  The
Rust trait also has a `name()` method, used only by code generation, which is
omitted.  `set_match` mutates `self` in place in Rust; here it returns the
updated value alongside the `Result`. -/
class ParserOutput (T : Type) where
  set_match : T → String → Match → Except MacrosError Unit × T

/- ===== MacroStream operations (`macros-utils/src/lib.rs`) ===== -/

/-- Rust `MacroStream::new`. -/
def MacroStream.new : MacroStream := .mk [] 0

/-- Rust `MacroStream::peek_at`. -/
def MacroStream.peek_at (s : MacroStream) (i : Nat) : Option Token :=
  s.stream.get? i

/-- Rust `MacroStream::peek`. -/
def MacroStream.peek (s : MacroStream) : Option Token :=
  s.peek_at 0

/-- Rust `MacroStream::is_empty`. -/
def MacroStream.is_empty (s : MacroStream) : Bool :=
  s.stream.isEmpty

/-- Rust `MacroStream::len`. -/
def MacroStream.len (s : MacroStream) : Nat :=
  s.stream.length

/-- Rust `MacroStream::push_front`. -/
def MacroStream.push_front : MacroStream → Token → MacroStream
  | .mk ts p, t => .mk (t :: ts) p

/-- Rust `MacroStream::push_back`. -/
def MacroStream.push_back : MacroStream → Token → MacroStream
  | .mk ts p, t => .mk (ts ++ [t]) p

/-- Rust `MacroStream::pop` (`lib.rs` lines 106-111): removes the front token and
increments `popped` once; on an empty stream nothing changes. -/
def MacroStream.pop : MacroStream → Option Token × MacroStream
  | .mk [] p => (Option.none, .mk [] p)
  | .mk (t :: ts) p => (some t, .mk ts (p + 1))

/-- Rust `MacroStream::pop_or_err` (`lib.rs` lines 137-146): calls `pop` (which already
increments `popped`) and then increments `popped` a second time in its `map`
closure — transcribed exactly as written. -/
def MacroStream.pop_or_err (s : MacroStream) : Except ParseError Token × MacroStream :=
  match s.pop with
  | (Option.none, s') => (.error (ParseError.at_call_site (.unexpectedEndOfInput "")), s')
  | (some t, s') => (.ok t, .mk s'.stream (s'.popped + 1))

/-- Rust `MacroStream::fork` (`lib.rs` lines 171-176): clone the queue, reset `popped`. -/
def MacroStream.fork (s : MacroStream) : MacroStream :=
  .mk s.stream 0

/-- Rust `MacroStream::unfork` (`lib.rs` lines 178-181): replace the queue with the
fork's queue, reset `popped`.  The original queue (first argument) is discarded. -/
def MacroStream.unfork (_s : MacroStream) (other : MacroStream) : MacroStream :=
  .mk other.stream 0

/-- Rust `stream.peek().map(|t| t.span()).unwrap_or_else(call_site)` — the span used
by many error constructions in `pattern.rs`. -/
def span_of_peek (s : MacroStream) : Span :=
  match s.peek with
  | some t => t.span
  | Option.none => call_site

/- ===== Pattern AST (`macros-utils/src/pattern.rs`) ===== -/

/-- Rust `macros-utils/src/pattern.rs::Pattern`.  The `Validator` variant's function
pointer `for<'a> fn(Cow<'a, T>, &Match) -> (Result<(), String>, Cow<'a, T>)`
becomes `T → Match → Except String Unit × T` (the `Cow` is a value here). -/
inductive Pattern (T : Type) where
  | optional (patterns : List (Pattern T))
  | parameter (patterns : List (Pattern T)) (name : String) (type_ : MacroStream)
  | zeroOrMore (patterns : List (Pattern T)) (greedy : Bool)
  | oneOrMore (patterns : List (Pattern T)) (greedy : Bool)
  | choice (choices : List (List (Pattern T)))
  | token (t : Token)
  | group (delimiter : Delimiter) (patterns : List (Pattern T))
  | any
  | validator (stream : Option MacroStream)
      (pred : Option (T → Match → Except String Unit × T))

/-- Outcome of `match_pattern` / `match_patterns`: the Rust pair
`(Result<Match, MacrosError>, Cow<T>)` together with the mutated stream,
or a propagated `panic!`. -/
inductive MRes (T : Type) where
  | done (res : Except MacrosError Match) (output : T) (stream : MacroStream)
  | panicked (msg : String)

/-- Same as `MRes` but with the `early` flag recording whether the Rust code
reached this result through a `return` statement (which skips the validator
post-processing at `pattern.rs` lines 520-532). -/
inductive CoreRes (T : Type) where
  | done (res : Except MacrosError Match) (output : T) (stream : MacroStream) (early : Bool)
  | panicked (msg : String)

/-- The `match_next` computation at the top of `Pattern::match_pattern`
(`pattern.rs` lines 332-335): the lookahead node used by repetitions skips an
immediately following `Validator` to reach the node after it. -/
def next_after {T : Type} (next next2 : Option (Pattern T)) : Option (Pattern T) :=
  match next with
  | some (.validator _ _) => next2
  | _ => next

/-- The validator post-processing at the end of `Pattern::match_pattern`
(`pattern.rs` lines 520-532): if the next grammar node is a `Validator`
carrying a predicate and the result is `Ok(m)`, call the predicate with the
current output and `m`; a predicate error becomes `ValidatorFailed`. -/
def validator_hook {T : Type} (next : Option (Pattern T))
    (res : Except MacrosError Match) (output : T) (stream : MacroStream) :
    Except MacrosError Match × T :=
  match next, res with
  | some (.validator _ (some f)), .ok m =>
    match f output m with
    | (.ok _, o) => (.ok m, o)
    | (.error e, o) =>
      (.error (.parse (ParseError.new (span_of_peek stream) (.validatorFailed e))), o)
  | _, _ => (res, output)

/-- Rust `if matches.is_empty() { Err(ExpectedRepetition) } else { Ok(Match::Many(matches)) }`
— the code after the `OneOrMore` loop (`pattern.rs` lines 430-440). -/
def one_or_more_result (acc : List Match) (stream : MacroStream) :
    Except MacrosError Match :=
  if acc.isEmpty then
    .error (.parse (ParseError.new (span_of_peek stream) .expectedRepetition))
  else
    .ok (.many acc)

/-- Rust `if matches.is_empty() { Ok(Match::None) } else { Ok(Match::Many(matches)) }`
— the code after the `ZeroOrMore` loop (`pattern.rs` lines 471-478). -/
def zero_or_more_result (acc : List Match) : Except MacrosError Match :=
  if acc.isEmpty then .ok .none else .ok (.many acc)

mutual

/-- Rust `Pattern::match_pattern` (`pattern.rs` lines 325-533): runs the per-variant
code (`match_pattern_core`) and, unless that code returned early, applies the
validator post-processing. -/
def match_pattern {T : Type} [ParserOutput T] :
    Nat → Pattern T → T → Option (Pattern T) → Option (Pattern T) → MacroStream →
    Option (MRes T)
  | 0, _, _, _, _, _ => Option.none
  | fuel+1, p, output, next, next2, stream =>
    match match_pattern_core fuel p output next next2 stream with
    | Option.none => Option.none
    | some (.panicked msg) => some (.panicked msg)
    | some (.done res o s early) =>
      if early then some (.done res o s)
      else
        match validator_hook next res o s with
        | (r, o2) => some (.done r o2 s)

/-- The `match self { ... }` body of `Pattern::match_pattern` (`pattern.rs`
lines 332-519).  `early = true` marks results produced by a Rust `return`. -/
def match_pattern_core {T : Type} [ParserOutput T] :
    Nat → Pattern T → T → Option (Pattern T) → Option (Pattern T) → MacroStream →
    Option (CoreRes T)
  | 0, _, _, _, _, _ => Option.none
  | fuel+1, p, output, next, next2, stream =>
    match p with
    | .any =>
      match stream.pop_or_err with
      | (.ok t, s) => some (.done (.ok (.one t)) output s false)
      | (.error e, s) => some (.done (.error (.parse e)) output s false)
    | .choice choices => choice_loop fuel choices output stream
    | .group delimiter patterns =>
      match stream.pop_or_err with
      | (.error e, s) => some (.done (.error (.parse e)) output s true)
      | (.ok tok, s) =>
        match tok with
        | .group d gs gspan =>
          if d == delimiter then
            match match_patterns fuel output patterns gs.fork with
            | Option.none => Option.none
            | some (.panicked msg) => some (.panicked msg)
            | some (.done res o f) =>
              if f.is_empty = false then
                some (.done (.error (.parse (ParseError.new (span_of_peek s) .inputTooLong)))
                  o s true)
              else
                some (.done res o (s.unfork f) true)
          else
            some (.done (.error (.parse (ParseError.new gspan (.expectedGroup delimiter))))
              output s false)
        | t =>
          some (.done (.error (.parse (ParseError.new t.span (.expectedGroup delimiter))))
            output s false)
    | .oneOrMore patterns greedy =>
      one_or_more_loop fuel patterns greedy (next_after next next2) output stream []
    | .zeroOrMore patterns greedy =>
      zero_or_more_loop fuel patterns greedy (next_after next next2) output stream []
    | .optional patterns =>
      match match_patterns fuel output patterns stream.fork with
      | Option.none => Option.none
      | some (.panicked msg) => some (.panicked msg)
      | some (.done (.ok m) o f) => some (.done (.ok m) o (stream.unfork f) false)
      | some (.done (.error _) o _) => some (.done (.ok .none) o stream false)
    | .token tok =>
      match stream.pop_or_err with
      | (.ok t, s) =>
        if token_eq t tok then
          some (.done (.ok (.one t)) output s false)
        else
          some (.done (.error (.parse (ParseError.new t.span (.expected tok t)))) output s false)
      | (.error e, s) => some (.done (.error (.parse e)) output s false)
    | .parameter patterns name _type =>
      match match_patterns fuel output patterns stream.fork with
      | Option.none => Option.none
      | some (.panicked msg) => some (.panicked msg)
      | some (.done (.ok m) o f) =>
        match ParserOutput.set_match o name m with
        | (.error e, o2) => some (.done (.error e) o2 (stream.unfork f) false)
        | (.ok _, o2) => some (.done (.ok m) o2 (stream.unfork f) false)
      | some (.done (.error e) o _) => some (.done (.error e) o stream false)
    | .validator _ _ =>
      some (.panicked "Validator pattern should not have been passed into Pattern::match_pattern")

/-- The `'choice` loop of the `Choice` arm (`pattern.rs` lines 344-362): try each
alternative on a fork; the first success is committed with `unfork` and returned
(a Rust `return`, hence `early = true`); a failure threads the output on to the
next alternative; exhaustion yields `NoMatchingChoice`. -/
def choice_loop {T : Type} [ParserOutput T] :
    Nat → List (List (Pattern T)) → T → MacroStream → Option (CoreRes T)
  | 0, _, _, _ => Option.none
  | _+1, [], output, stream =>
    some (.done (.error (.parse (ParseError.new (span_of_peek stream) .noMatchingChoice)))
      output stream false)
  | fuel+1, c :: rest, output, stream =>
    match match_patterns fuel output c stream.fork with
    | Option.none => Option.none
    | some (.panicked msg) => some (.panicked msg)
    | some (.done (.error _) o _) => choice_loop fuel rest o stream
    | some (.done (.ok m) o f) => some (.done (.ok m) o (stream.unfork f) true)

/-- The `loop` of the `OneOrMore` arm (`pattern.rs` lines 398-441).  A body
failure with no repetitions so far is a Rust `return` of the body's error
(`early = true`); with at least one repetition it breaks to the post-loop
result.  After a successful repetition the fork is committed and, when not
greedy, the lookahead pattern is tried on a throwaway fork. -/
def one_or_more_loop {T : Type} [ParserOutput T] :
    Nat → List (Pattern T) → Bool → Option (Pattern T) → T → MacroStream → List Match →
    Option (CoreRes T)
  | 0, _, _, _, _, _, _ => Option.none
  | fuel+1, patterns, greedy, match_next, output, stream, acc =>
    match match_patterns fuel output patterns stream.fork with
    | Option.none => Option.none
    | some (.panicked msg) => some (.panicked msg)
    | some (.done (.error e) o _) =>
      if acc.isEmpty then
        some (.done (.error e) o stream true)
      else
        some (.done (one_or_more_result acc stream) o stream false)
    | some (.done (.ok m) o f) =>
      match match_next with
      | some next =>
        if greedy = false && (acc ++ [m]).isEmpty = false then
          match match_pattern fuel next o Option.none Option.none (stream.unfork f).fork with
          | Option.none => Option.none
          | some (.panicked msg) => some (.panicked msg)
          | some (.done (.ok _) o2 _) =>
            some (.done (one_or_more_result (acc ++ [m]) (stream.unfork f)) o2 (stream.unfork f) false)
          | some (.done (.error _) o2 _) =>
            one_or_more_loop fuel patterns greedy match_next o2 (stream.unfork f) (acc ++ [m])
        else one_or_more_loop fuel patterns greedy match_next o (stream.unfork f) (acc ++ [m])
      | _ => one_or_more_loop fuel patterns greedy match_next o (stream.unfork f) (acc ++ [m])

/-- The `loop` of the `ZeroOrMore` arm (`pattern.rs` lines 442-479): like
`one_or_more_loop` but any body failure breaks to the post-loop result, and the
non-greedy lookahead is tried after every successful repetition. -/
def zero_or_more_loop {T : Type} [ParserOutput T] :
    Nat → List (Pattern T) → Bool → Option (Pattern T) → T → MacroStream → List Match →
    Option (CoreRes T)
  | 0, _, _, _, _, _, _ => Option.none
  | fuel+1, patterns, greedy, match_next, output, stream, acc =>
    match match_patterns fuel output patterns stream.fork with
    | Option.none => Option.none
    | some (.panicked msg) => some (.panicked msg)
    | some (.done (.error _) o _) =>
      some (.done (zero_or_more_result acc) o stream false)
    | some (.done (.ok m) o f) =>
      match match_next with
      | some next =>
        if greedy = false then
          match match_pattern fuel next o Option.none Option.none (stream.unfork f).fork with
          | Option.none => Option.none
          | some (.panicked msg) => some (.panicked msg)
          | some (.done (.ok _) o2 _) =>
            some (.done (zero_or_more_result (acc ++ [m])) o2 (stream.unfork f) false)
          | some (.done (.error _) o2 _) =>
            zero_or_more_loop fuel patterns greedy match_next o2 (stream.unfork f) (acc ++ [m])
        else zero_or_more_loop fuel patterns greedy match_next o (stream.unfork f) (acc ++ [m])
      | _ => zero_or_more_loop fuel patterns greedy match_next o (stream.unfork f) (acc ++ [m])

/-- Rust `Pattern::match_patterns` (`pattern.rs` lines 535-559). -/
def match_patterns {T : Type} [ParserOutput T] :
    Nat → T → List (Pattern T) → MacroStream → Option (MRes T)
  | 0, _, _, _ => Option.none
  | fuel+1, output, patterns, stream => match_patterns_go fuel output patterns stream []

/-- The `for (i, pattern)` loop of `match_patterns`: skip `Validator` nodes,
dispatch every real node with the following one/two nodes as `next`/`next2`,
and accumulate `One`/`None`/`Many` results (a `Many` is spliced flat). -/
def match_patterns_go {T : Type} [ParserOutput T] :
    Nat → T → List (Pattern T) → MacroStream → List Match → Option (MRes T)
  | 0, _, _, _, _ => Option.none
  | _+1, output, [], stream, acc => some (.done (.ok (.many acc)) output stream)
  | fuel+1, output, p :: rest, stream, acc =>
    match p with
    | .validator _ _ => match_patterns_go fuel output rest stream acc
    | _ =>
      match match_pattern fuel p output (rest.get? 0) (rest.get? 1) stream with
      | Option.none => Option.none
      | some (.panicked msg) => some (.panicked msg)
      | some (.done (.ok (.one t)) o s) => match_patterns_go fuel o rest s (acc ++ [.one t])
      | some (.done (.ok .none) o s) => match_patterns_go fuel o rest s acc
      | some (.done (.ok (.many ms)) o s) => match_patterns_go fuel o rest s (acc ++ ms)
      | some (.done (.error e) o s) => some (.done (.error e) o s)
end

/- ===== Derived predicates used by the claim statements ===== -/

/-- Is this pattern node a `Validator`? -/
def is_validator_node {T : Type} : Pattern T → Bool
  | .validator _ _ => true
  | _ => false

/-- Is this pattern a `Choice` or a `Group` node — the two variants whose
successful results are produced by a Rust `return` and therefore skip the
validator hook at the end of `Pattern::match_pattern`? -/
def is_choice_or_group {T : Type} : Pattern T → Bool
  | .choice _ => true
  | .group _ _ => true
  | _ => false

/-- Does `next` hold a `Validator` node carrying a predicate (the guard of the
validator hook)? -/
def is_validator_fn_next {T : Type} : Option (Pattern T) → Bool
  | some (.validator _ (some _)) => true
  | _ => false

/-- The `(Some(&Pattern::Validator(_, _)) | None)` test on `prev` in
`stream_to_patterns`: a `Validator` parsed next would be mis-placed. -/
def prev_forbids_validator {T : Type} : Option (Pattern T) → Bool
  | Option.none => true
  | some (.validator _ _) => true
  | some _ => false

/-- Validator-placement well-formedness of a pattern list: scan left to right
with a flag saying whether a `Validator` at the current position would be
illegal (it is illegal at the start and right after another `Validator`). -/
def validators_ok_aux {T : Type} : Bool → List (Pattern T) → Bool
  | _, [] => true
  | prevBad, p :: rest =>
    if is_validator_node p then !prevBad && validators_ok_aux true rest
    else validators_ok_aux false rest

/-- A pattern list has no leading `Validator` and no two consecutive `Validator`s. -/
def validators_ok {T : Type} (ps : List (Pattern T)) : Bool :=
  validators_ok_aux true ps

/-- Is this match result an `Err`? -/
def MRes.is_err {T : Type} : MRes T → Bool
  | .done (.error _) _ _ => true
  | _ => false

/- ===== Grammar-text parsing (`macros-utils/src/pattern.rs` lines 65-96, 98-266) ===== -/

/-- Outcome of the grammar-text parser: `Ok`, a propagated `Err`, or a
`proc_macro_error::abort!`/`abort_call_site!` (which aborts macro expansion;
only the message is modelled, not the abort span). -/
inductive PRes (A : Type) where
  | ok (a : A)
  | err (e : MacrosError)
  | aborted (msg : String)

/-- Rust `MacroStream::from_tokens(TokenStream::from_str("macros_core::Match").unwrap()).unwrap()`
(`pattern.rs` line 192) — the default parameter type annotation: the tokens of
the text `macros_core::Match`, with call-site spans. -/
def macros_core_match_stream : MacroStream :=
  .mk [.ident "macros_core" call_site,
       .punctuation ':' .joint call_site,
       .punctuation ':' .alone call_site,
       .ident "Match" call_site] 0

/-- Rust `value: '?' | '*' | '+' | '=' | '~' | '@' | '&' | '$'` (`pattern.rs` line 252). -/
def tilde_escapable (c : Char) : Bool :=
  c == '?' || c == '*' || c == '+' || c == '=' || c == '~' || c == '@' || c == '&' || c == '$'

mutual

/-- Rust `Pattern::parse` (`pattern.rs` lines 102-265): parse one pattern node from
the front of `input`, returning it with the remaining input. -/
def pattern_parse {T : Type} : Nat → MacroStream → Option (PRes (Pattern T × MacroStream))
  | 0, _ => Option.none
  | fuel+1, input =>
    match input.pop_or_err with
    | (.error e, _) =>
      some (.err (.parse (e.unexpected_end_of_input "started parsing a pattern and found no start")))
    | (.ok tok, input) =>
      match tok with
      | .group .brace stream _ =>
        match stream.pop_or_err with
        | (.error _, _) =>
          match input.peek with
          | some (.punctuation '$' .alone _) => some (.ok (.any, (input.pop).2))
          | _ => some (.aborted "found empty group, expected either an any pattern (like \x7b\x7d$) after the braces or something in the braces")
        | (.ok tok1, stream) =>
          match tok1 with
          | .group .brace inner_stream isp =>
            if stream.is_empty then
              match stream_to_patterns fuel inner_stream with
              | Option.none => Option.none
              | some (.err e) => some (.err e)
              | some (.aborted m) => some (.aborted m)
              | some (.ok (ps, _)) => some (.ok (.group .brace ps, input))
            else
              pattern_parse_braces fuel input stream (.group .brace inner_stream isp)
          | _ => pattern_parse_braces fuel input stream tok1
      | .punctuation '~' _ _ =>
        match input.pop_or_err with
        | (.error e, _) =>
          some (.err (.parse (e.unexpected_end_of_input "started parsing a pattern and found no start")))
        | (.ok nxt, input) =>
          match nxt with
          | .punctuation c sp psp =>
            if tilde_escapable c then some (.ok (.token (.punctuation c sp psp), input))
            else some (.aborted "expected one of ?*+=~@&$ after tilde")
          | _ => some (.aborted "expected one of ?*+=~@&$ after tilde")
      | .group delim stream _ =>
        match stream_to_patterns fuel stream with
        | Option.none => Option.none
        | some (.err e) => some (.err e)
        | some (.aborted m) => some (.aborted m)
        | some (.ok (ps, _)) => some (.ok (.group delim ps, input))
      | t => some (.ok (.token t, input))

/-- The `Ok(token) =>` arm of `Pattern::parse` for a single-brace group
(`pattern.rs` lines 123-235): dispatch on the ending punctuation after the
braces, then pop that ending from `input`. -/
def pattern_parse_braces {T : Type} :
    Nat → MacroStream → MacroStream → Token → Option (PRes (Pattern T × MacroStream))
  | 0, _, _, _ => Option.none
  | fuel+1, input, stream, tok1 =>
    match input.peek with
    | some (.punctuation '?' .alone _) =>
      match stream_to_patterns fuel (stream.push_front tok1) with
      | Option.none => Option.none
      | some (.err e) => some (.err e)
      | some (.aborted m) => some (.aborted m)
      | some (.ok (ps, _)) => some (.ok (.optional ps, (input.pop).2))
    | some (.punctuation '*' .alone _) =>
      match stream_to_patterns fuel (stream.push_front tok1) with
      | Option.none => Option.none
      | some (.err e) => some (.err e)
      | some (.aborted m) => some (.aborted m)
      | some (.ok (ps, _)) => some (.ok (.zeroOrMore ps false, (input.pop).2))
    | some (.punctuation '*' .joint _) =>
      match stream_to_patterns fuel (stream.push_front tok1) with
      | Option.none => Option.none
      | some (.err e) => some (.err e)
      | some (.aborted m) => some (.aborted m)
      | some (.ok (ps, _)) =>
        match input.peek_at 1 with
        | some (.punctuation '*' .alone _) => some (.ok (.zeroOrMore ps true, ((input.pop).2.pop).2))
        | _ => some (.ok (.zeroOrMore ps false, (input.pop).2))
    | some (.punctuation '+' .alone _) =>
      match stream_to_patterns fuel (stream.push_front tok1) with
      | Option.none => Option.none
      | some (.err e) => some (.err e)
      | some (.aborted m) => some (.aborted m)
      | some (.ok (ps, _)) => some (.ok (.oneOrMore ps false, (input.pop).2))
    | some (.punctuation '+' .joint _) =>
      match stream_to_patterns fuel (stream.push_front tok1) with
      | Option.none => Option.none
      | some (.err e) => some (.err e)
      | some (.aborted m) => some (.aborted m)
      | some (.ok (ps, _)) =>
        match input.peek_at 1 with
        | some (.punctuation '+' .alone _) => some (.ok (.oneOrMore ps true, ((input.pop).2.pop).2))
        | _ => some (.ok (.oneOrMore ps false, (input.pop).2))
    | some (.punctuation '@' .alone _) =>
      match parse_param_loop fuel tok1.span [] (stream.push_front tok1) with
      | Option.none => Option.none
      | some (.err e) => some (.err e)
      | some (.aborted m) => some (.aborted m)
      | some (.ok (_span, ps, stream)) =>
        if stream.is_empty then
          some (.aborted "expected a pattern, a colon, then an ident, (like some_pattern_here:name), found end of input")
        else if ps.isEmpty then
          some (.aborted "expected a pattern, a colon, then an ident, (like some_pattern_here:name), found no pattern")
        else
          match stream.pop_or_err with
          | (.error e, _) => some (.err (.parse e))
          | (.ok tok2, stream) =>
            match tok2 with
            | .ident nm _ =>
              match stream.pop with
              | (some (.punctuation ':' .alone _), stream) =>
                if stream.is_empty then
                  some (.aborted "expected a type after the colon, found end of input")
                else
                  some (.ok (.parameter ps nm stream, (input.pop).2))
              | (some _, _) => some (.aborted "expected a colon after the identifier")
              | (Option.none, _) =>
                some (.ok (.parameter ps nm macros_core_match_stream, (input.pop).2))
            | _ => some (.aborted "expected an identifier")
    | some (.punctuation '&' .alone _) =>
      match parse_choice_loop fuel [] [] (stream.push_front tok1) with
      | Option.none => Option.none
      | some (.err e) => some (.err e)
      | some (.aborted m) => some (.aborted m)
      | some (.ok (pss, current)) =>
        let pss := if current.isEmpty then pss else pss ++ [current]
        some (.ok (.choice pss, (input.pop).2))
    | some (.punctuation '$' .alone _) => some (.ok (.any, (input.pop).2))
    | some (.punctuation '=' .alone _) =>
      some (.ok (.validator (some (stream.push_front tok1)) Option.none, (input.pop).2))
    | _ => some (.aborted "expected one of ?*+=~@&$ after single braces")

/-- The `while !stream.is_empty()` loop inside the `'@'` arm
(`pattern.rs` lines 161-174): collect body patterns until a lone `:`. -/
def parse_param_loop {T : Type} :
    Nat → Span → List (Pattern T) → MacroStream →
    Option (PRes (Span × List (Pattern T) × MacroStream))
  | 0, _, _, _ => Option.none
  | fuel+1, span, ps, stream =>
    if stream.is_empty then some (.ok (span, ps, stream))
    else
      let span := match stream.peek with
        | some t => t.span
        | Option.none => span
      match stream.peek with
      | some (.punctuation ':' .alone _) => some (.ok (span, ps, (stream.pop).2))
      | _ =>
        match pattern_parse fuel stream with
        | Option.none => Option.none
        | some (.err e) => some (.err e)
        | some (.aborted m) => some (.aborted m)
        | some (.ok (p, stream)) => parse_param_loop fuel span (ps ++ [p]) stream

/-- The `while !stream.is_empty()` loop inside the `'&'` arm
(`pattern.rs` lines 203-216): split alternatives on lone `|`. -/
def parse_choice_loop {T : Type} :
    Nat → List (List (Pattern T)) → List (Pattern T) → MacroStream →
    Option (PRes (List (List (Pattern T)) × List (Pattern T)))
  | 0, _, _, _ => Option.none
  | fuel+1, pss, current, stream =>
    if stream.is_empty then some (.ok (pss, current))
    else
      match stream.peek with
      | some (.punctuation '|' .alone _) =>
        let pss := if current.isEmpty then pss else pss ++ [current]
        parse_choice_loop fuel pss [] (stream.pop).2
      | _ =>
        match pattern_parse fuel stream with
        | Option.none => Option.none
        | some (.err e) => some (.err e)
        | some (.aborted m) => some (.aborted m)
        | some (.ok (p, stream)) => parse_choice_loop fuel pss (current ++ [p]) stream

/-- Rust `stream_to_patterns` (`pattern.rs` lines 76-96). -/
def stream_to_patterns {T : Type} :
    Nat → MacroStream → Option (PRes (List (Pattern T) × MacroStream))
  | 0, _ => Option.none
  | fuel+1, stream => stream_to_patterns_go fuel Option.none [] stream

/-- The `while !stream.is_empty()` loop of `stream_to_patterns`, carrying
`prev` (the last pushed pattern) and the accumulated list.  A `Validator`
whose predecessor is absent or itself a `Validator` is rejected with
`InvalidValidatorPosition`. -/
def stream_to_patterns_go {T : Type} :
    Nat → Option (Pattern T) → List (Pattern T) → MacroStream →
    Option (PRes (List (Pattern T) × MacroStream))
  | 0, _, _, _ => Option.none
  | fuel+1, prev, ps, stream =>
    if stream.is_empty then some (.ok (ps, stream))
    else
      match pattern_parse fuel stream with
      | Option.none => Option.none
      | some (.err e) => some (.err e)
      | some (.aborted m) => some (.aborted m)
      | some (.ok (current, stream)) =>
        if prev_forbids_validator prev && is_validator_node current then
          some (.err (.parse (ParseError.new (span_of_peek stream) .invalidValidatorPosition)))
        else stream_to_patterns_go fuel (some current) (ps ++ [current]) stream
end

/- ===== Concrete output sinks used by witnesses and counterexamples ===== -/

/-- A concrete output sink whose `set_match` always succeeds, counting calls. -/
structure AcceptOut where
  count : Nat

instance : ParserOutput AcceptOut :=
  ⟨fun o _ _ => (.ok (), { o with count := o.count + 1 })⟩

/-- A concrete output sink whose `set_match` always fails. -/
structure RejectOut where
  tag : Nat

instance : ParserOutput RejectOut :=
  ⟨fun o _ _ => (.error (.user "rejected by sink"), o)⟩

/-- A validator predicate that rejects every match. -/
def reject_pred (o : AcceptOut) (_ : Match) : Except String Unit × AcceptOut :=
  (.error "reject", o)

/-- A validator predicate that accepts every match, bumping the sink's counter
so that its invocation is observable. -/
def accept_pred (o : AcceptOut) (_ : Match) : Except String Unit × AcceptOut :=
  (.ok (), { o with count := o.count + 7 })

/- ===== Helper lemmas ===== -/

theorem validator_hook_error {T : Type} (next : Option (Pattern T)) (e : MacrosError)
    (o : T) (s : MacroStream) : validator_hook next (.error e) o s = (.error e, o) := by
  cases next with
  | none => rfl
  | some p =>
    cases p <;> first
      | rfl
      | (rename_i st pred; cases pred <;> rfl)

theorem validator_hook_ok_no_fn {T : Type} (next : Option (Pattern T)) (m : Match)
    (o : T) (s : MacroStream) (h : is_validator_fn_next next = false) :
    validator_hook next (.ok m) o s = (.ok m, o) := by
  cases next with
  | none => rfl
  | some p =>
    cases p <;> first
      | rfl
      | (rename_i st pred
         cases pred with
         | none => rfl
         | some f => simp [is_validator_fn_next] at h)

theorem next_after_of_not_validator {T : Type} (p : Pattern T) (next2 : Option (Pattern T))
    (h : is_validator_node p = false) : next_after (some p) next2 = some p := by
  cases p <;> first
    | rfl
    | simp [is_validator_node] at h

theorem is_validator_fn_next_of_not_validator {T : Type} (p : Pattern T)
    (h : is_validator_node p = false) : is_validator_fn_next (some p) = false := by
  cases p <;> first
    | rfl
    | simp [is_validator_node] at h

theorem prev_forbids_validator_some {T : Type} (p : Pattern T) :
    prev_forbids_validator (some p) = is_validator_node p := by
  cases p <;> rfl

theorem zero_or_more_loop_no_early {T : Type} [ParserOutput T] :
    ∀ (fuel : Nat) (ps : List (Pattern T)) (g : Bool) (mn : Option (Pattern T)) (o : T)
      (s : MacroStream) (acc : List Match) (res : Except MacrosError Match) (o' : T)
      (s' : MacroStream) (e : Bool),
      zero_or_more_loop fuel ps g mn o s acc = some (.done res o' s' e) → e = false := by
  intro fuel
  induction fuel with
  | zero =>
    intro ps g mn o s acc res o' s' e h
    simp [zero_or_more_loop] at h
  | succ n ih =>
    intro ps g mn o s acc res o' s' e h
    simp only [zero_or_more_loop] at h
    repeat' split at h
    all_goals
      first
        | exact ih _ _ _ _ _ _ _ _ _ _ h
        | (simp only [Option.some.injEq, CoreRes.done.injEq] at h
           exact h.2.2.2.symm)
        | simp at h

theorem one_or_more_loop_ok_no_early {T : Type} [ParserOutput T] :
    ∀ (fuel : Nat) (ps : List (Pattern T)) (g : Bool) (mn : Option (Pattern T)) (o : T)
      (s : MacroStream) (acc : List Match) (m : Match) (o' : T)
      (s' : MacroStream) (e : Bool),
      one_or_more_loop fuel ps g mn o s acc = some (.done (.ok m) o' s' e) → e = false := by
  intro fuel
  induction fuel with
  | zero =>
    intro ps g mn o s acc m o' s' e h
    simp [one_or_more_loop] at h
  | succ n ih =>
    intro ps g mn o s acc m o' s' e h
    simp only [one_or_more_loop] at h
    repeat' split at h
    all_goals
      first
        | exact ih _ _ _ _ _ _ _ _ _ _ h
        | (simp only [Option.some.injEq, CoreRes.done.injEq] at h
           exact h.2.2.2.symm)
        | simp at h

theorem match_pattern_core_ok_no_early {T : Type} [ParserOutput T]
    (fuel : Nat) (p : Pattern T) (output : T) (next next2 : Option (Pattern T))
    (stream : MacroStream) (m : Match) (o : T) (s : MacroStream) (e : Bool)
    (hp : is_choice_or_group p = false)
    (h : match_pattern_core fuel p output next next2 stream = some (.done (.ok m) o s e)) :
    e = false := by
  cases fuel with
  | zero => simp [match_pattern_core] at h
  | succ n =>
    cases p with
    | choice cs => simp [is_choice_or_group] at hp
    | group d ps => simp [is_choice_or_group] at hp
    | zeroOrMore ps g =>
      simp only [match_pattern_core] at h
      exact zero_or_more_loop_no_early _ _ _ _ _ _ _ _ _ _ _ h
    | oneOrMore ps g =>
      simp only [match_pattern_core] at h
      exact one_or_more_loop_ok_no_early _ _ _ _ _ _ _ _ _ _ _ h
    | any =>
      simp only [match_pattern_core] at h
      repeat' split at h
      all_goals
        (simp only [Option.some.injEq, CoreRes.done.injEq] at h
         exact h.2.2.2.symm)
    | token t =>
      simp only [match_pattern_core] at h
      repeat' split at h
      all_goals
        (simp only [Option.some.injEq, CoreRes.done.injEq] at h
         exact h.2.2.2.symm)
    | optional ps =>
      simp only [match_pattern_core] at h
      repeat' split at h
      all_goals
        first
          | (simp only [Option.some.injEq, CoreRes.done.injEq] at h
             exact h.2.2.2.symm)
          | simp at h
    | parameter ps nm ty =>
      simp only [match_pattern_core] at h
      repeat' split at h
      all_goals
        first
          | (simp only [Option.some.injEq, CoreRes.done.injEq] at h
             exact h.2.2.2.symm)
          | simp at h
    | validator vs vf =>
      simp [match_pattern_core] at h

theorem pattern_parse_ok_nonempty {T : Type}
    (fuel : Nat) (s : MacroStream) (p : Pattern T) (s' : MacroStream)
    (h : pattern_parse fuel s = some (.ok (p, s'))) : s.is_empty = false := by
  cases fuel with
  | zero => simp [pattern_parse] at h
  | succ n =>
    obtain ⟨ts, pc⟩ := s
    cases ts with
    | nil =>
      simp [pattern_parse, MacroStream.pop_or_err, MacroStream.pop] at h
    | cons t rest => rfl

theorem stream_to_patterns_go_ok {T : Type} :
    ∀ (fuel : Nat) (prev : Option (Pattern T)) (acc : List (Pattern T)) (s : MacroStream)
      (ps : List (Pattern T)) (s' : MacroStream),
      stream_to_patterns_go fuel prev acc s = some (.ok (ps, s')) →
      ∃ tail, ps = acc ++ tail ∧
        validators_ok_aux (prev_forbids_validator prev) tail = true := by
  intro fuel
  induction fuel with
  | zero =>
    intro prev acc s ps s' h
    simp [stream_to_patterns_go] at h
  | succ n ih =>
    intro prev acc s ps s' h
    simp only [stream_to_patterns_go] at h
    split at h
    · simp only [Option.some.injEq, PRes.ok.injEq, Prod.mk.injEq] at h
      exact ⟨[], by simp [h.1.symm], rfl⟩
    · split at h
      · exact Option.noConfusion h
      · simp at h
      · simp at h
      · split at h
        · simp at h
        · rename_i current s2 hparse hcond
          obtain ⟨tail', htail, hok⟩ := ih _ _ _ _ _ h
          rw [prev_forbids_validator_some] at hok
          refine ⟨current :: tail', by simp [htail], ?_⟩
          rw [Bool.not_eq_true, Bool.and_eq_false_iff] at hcond
          cases hiv : is_validator_node current with
          | true =>
            rw [hiv] at hok
            have hpf : prev_forbids_validator prev = false := by
              cases hcond with
              | inl h1 => exact h1
              | inr h2 => rw [hiv] at h2; exact absurd h2 (by simp)
            simp [validators_ok_aux, hiv, hpf, hok]
          | false =>
            rw [hiv] at hok
            simp [validators_ok_aux, hiv, hok]

theorem match_pattern_of_core_early {T : Type} [ParserOutput T]
    (fuel : Nat) (p : Pattern T) (output : T) (next next2 : Option (Pattern T))
    (stream : MacroStream) (res : Except MacrosError Match) (o : T) (s : MacroStream)
    (h : match_pattern_core fuel p output next next2 stream = some (.done res o s true)) :
    match_pattern (fuel+1) p output next next2 stream = some (.done res o s) := by
  simp [match_pattern, h]

theorem match_pattern_of_core_late {T : Type} [ParserOutput T]
    (fuel : Nat) (p : Pattern T) (output : T) (next next2 : Option (Pattern T))
    (stream : MacroStream) (res : Except MacrosError Match) (o : T) (s : MacroStream)
    (h : match_pattern_core fuel p output next next2 stream = some (.done res o s false)) :
    match_pattern (fuel+1) p output next next2 stream =
      some (.done (validator_hook next res o s).1 (validator_hook next res o s).2 s) := by
  simp only [match_pattern, h]
  rcases hv : validator_hook next res o s with ⟨r, o2⟩
  simp [hv]

theorem match_pattern_cases {T : Type} [ParserOutput T]
    (fuel : Nat) (p : Pattern T) (output : T) (next next2 : Option (Pattern T))
    (stream : MacroStream) (r : MRes T)
    (h : match_pattern (fuel+1) p output next next2 stream = some r) :
    (∃ msg, match_pattern_core fuel p output next next2 stream = some (.panicked msg) ∧
      r = .panicked msg) ∨
    (∃ res o s, match_pattern_core fuel p output next next2 stream = some (.done res o s true) ∧
      r = .done res o s) ∨
    (∃ res o s, match_pattern_core fuel p output next next2 stream = some (.done res o s false) ∧
      r = .done (validator_hook next res o s).1 (validator_hook next res o s).2 s) := by
  cases hc : match_pattern_core fuel p output next next2 stream with
  | none =>
    simp only [match_pattern, hc] at h
    exact Option.noConfusion h
  | some cr =>
    cases cr with
    | panicked msg =>
      simp only [match_pattern, hc] at h
      injection h with h1
      exact Or.inl ⟨msg, rfl, h1.symm⟩
    | done res o s early =>
      cases early with
      | true =>
        simp only [match_pattern, hc, if_pos] at h
        injection h with h1
        exact Or.inr (Or.inl ⟨res, o, s, rfl, h1.symm⟩)
      | false =>
        simp only [match_pattern, hc] at h
        rcases hv : validator_hook next res o s with ⟨r2, o2⟩
        rw [hv] at h
        simp only [Bool.false_eq_true, if_false] at h
        injection h with h1
        refine Or.inr (Or.inr ⟨res, o, s, rfl, ?_⟩)
        rw [hv]
        exact h1.symm

theorem group_core_ok_stream {T : Type} [ParserOutput T]
    (fuel : Nat) (d : Delimiter) (body : List (Pattern T)) (output : T)
    (next next2 : Option (Pattern T)) (stream : MacroStream)
    (m : Match) (o : T) (s : MacroStream) (early : Bool)
    (h : match_pattern_core fuel (.group d body) output next next2 stream =
      some (.done (.ok m) o s early)) :
    s = .mk [] 0 := by
  cases fuel with
  | zero => simp [match_pattern_core] at h
  | succ n =>
    simp only [match_pattern_core] at h
    split at h
    · simp at h
    · split at h
      · split at h
        · split at h
          · exact Option.noConfusion h
          · simp at h
          · split at h
            · simp at h
            · rename_i hne
              simp only [Option.some.injEq, CoreRes.done.injEq] at h
              obtain ⟨hres, ho, hs, he⟩ := h
              rw [Bool.not_eq_false] at hne
              rw [← hs]
              simp only [MacroStream.unfork, MacroStream.mk.injEq]
              constructor
              · simp only [MacroStream.is_empty] at hne
                exact List.isEmpty_iff.mp hne
              · trivial
        · simp at h
      · simp at h

theorem optional_core_cases {T : Type} [ParserOutput T]
    (fuel : Nat) (g : List (Pattern T)) (output : T) (next next2 : Option (Pattern T))
    (stream : MacroStream) (cr : CoreRes T)
    (h : match_pattern_core (fuel+1) (.optional g) output next next2 stream = some cr) :
    (∃ msg, cr = .panicked msg) ∨
    (∃ m o s, cr = .done (.ok m) o s false) := by
  simp only [match_pattern_core] at h
  split at h
  · exact Option.noConfusion h
  · injection h with h1
    exact Or.inl ⟨_, h1.symm⟩
  · injection h with h1
    exact Or.inr ⟨_, _, _, h1.symm⟩
  · injection h with h1
    exact Or.inr ⟨_, _, _, h1.symm⟩

/- ===== Claim theorems ===== -/

/-- C1 (amended): for every real pattern node other than `Choice` and `Group`
that is immediately followed by a `Validator` carrying a predicate, when the
node's per-variant code succeeds with match `m` and output `o`, the validator
hook calls the predicate with `(o, m)`; a predicate error turns the success
into a `ValidatorFailed` failure.  (`Choice` and `Group` successes are Rust
`return`s that bypass the hook — see the counterexample.) -/
theorem c1_validator_hook_applies_amended {T : Type} [ParserOutput T]
    (fuel : Nat) (p : Pattern T) (output : T) (vstream : Option MacroStream)
    (f : T → Match → Except String Unit × T) (next2 : Option (Pattern T))
    (stream : MacroStream) (m : Match) (o : T) (s : MacroStream) (early : Bool)
    (hp : is_choice_or_group p = false)
    (h : match_pattern_core fuel p output (some (.validator vstream (some f))) next2 stream =
      some (.done (.ok m) o s early)) :
    match_pattern (fuel+1) p output (some (.validator vstream (some f))) next2 stream =
      some (match f o m with
        | (.ok _, o2) => .done (.ok m) o2 s
        | (.error e, o2) =>
          .done (.error (.parse (ParseError.new (span_of_peek s) (.validatorFailed e)))) o2 s) := by
  have he : early = false := match_pattern_core_ok_no_early _ _ _ _ _ _ _ _ _ _ hp h
  subst he
  rw [match_pattern_of_core_late _ _ _ _ _ _ _ _ _ h]
  rcases hf : f o m with ⟨fr, o2⟩
  cases fr with
  | ok u => simp [validator_hook, hf]
  | error e => simp [validator_hook, hf]

/-- C1 (counterexample): a `Choice` pattern immediately followed by a
`Validator` whose predicate rejects everything still succeeds — the success is
returned early and the predicate is never consulted, contradicting the claim
that the hook fires for every variant including `Choice`. -/
theorem c1_choice_bypasses_validator_counterexample :
    match_pattern 9 (.choice [[.any]]) (AcceptOut.mk 0)
      (some (.validator Option.none (some reject_pred))) Option.none (.mk [.ident "x" 1] 0) =
      some (.done (.ok (.many [.one (.ident "x" 1)])) (AcceptOut.mk 0) (.mk [] 0))
    ∧ MRes.is_err (.done (.ok (.many [.one (.ident "x" 1)])) (AcceptOut.mk 0)
        (.mk [] 0) : MRes AcceptOut) = false :=
  ⟨rfl, rfl⟩

/-- C1 (witness): an `Any` node followed by a `Validator` carrying an accepting
predicate: the hook runs the predicate, whose output update is observable. -/
theorem c1_validator_hook_witness :
    is_choice_or_group (.any : Pattern AcceptOut) = false
    ∧ match_pattern 4 (.any : Pattern AcceptOut) (AcceptOut.mk 0)
        (some (.validator Option.none (some accept_pred))) Option.none (.mk [.ident "x" 1] 0) =
        some (.done (.ok (.one (.ident "x" 1))) (AcceptOut.mk 7) (.mk [] 2)) :=
  ⟨rfl, c1_validator_hook_applies_amended 3 .any (AcceptOut.mk 0) Option.none accept_pred
    Option.none (.mk [.ident "x" 1] 0) (.one (.ident "x" 1)) (AcceptOut.mk 0) (.mk [] 2)
    false rfl rfl⟩

/-- C2 (confirmed): whenever `match_pattern` on `Group(delimiter, body)`
succeeds, the outer cursor ends empty: `unfork` replaces the outer cursor's
entire remaining content with the inner fork's fully-consumed (empty)
remainder, so every token that followed the group token is dropped. -/
theorem c2_group_success_empties_cursor {T : Type} [ParserOutput T]
    (fuel : Nat) (d : Delimiter) (body : List (Pattern T)) (output : T)
    (next next2 : Option (Pattern T)) (stream : MacroStream)
    (m : Match) (o : T) (s' : MacroStream)
    (h : match_pattern fuel (.group d body) output next next2 stream =
      some (.done (.ok m) o s')) :
    s' = .mk [] 0 := by
  cases fuel with
  | zero => simp [match_pattern] at h
  | succ n =>
    rcases match_pattern_cases n _ _ _ _ _ _ h with
      ⟨msg, hc, hr⟩ | ⟨res, o1, s1, hc, hr⟩ | ⟨res, o1, s1, hc, hr⟩
    · exact MRes.noConfusion hr
    · injection hr with h1 h2 h3
      subst h1
      rw [h3]
      exact group_core_ok_stream _ _ _ _ _ _ _ _ _ _ _ hc
    · injection hr with h1 h2 h3
      subst h3
      cases res with
      | error e =>
        rw [validator_hook_error] at h1
        exact Except.noConfusion h1
      | ok m0 =>
        exact group_core_ok_stream _ _ _ _ _ _ _ _ _ _ _ hc

/-- C2 (witness): matching `(x)` as a paren group with body `Any` while a
token `y` follows the group in the outer cursor; the success leaves the outer
cursor empty (the trailing `y` is dropped). -/
theorem c2_group_success_witness :
    (MacroStream.mk [] 0 : MacroStream) = .mk [] 0 :=
  c2_group_success_empties_cursor 9 .parenthesis [.any] (AcceptOut.mk 0) Option.none
    Option.none (.mk [.group .parenthesis (.mk [.ident "x" 4] 0) 3, .ident "y" 9] 0)
    (.many [.one (.ident "x" 4)]) (AcceptOut.mk 0) (.mk [] 0) rfl

/-- C3 (amended): matching `Literal(t)` against a cursor whose front token `u`
is structurally different fails with `Expected(t, u)` but the cursor is NOT
left unchanged: the mismatching token has been consumed (removed from the
front, with `popped` increased by 2); the cursor is only restored by an
enclosing fork (Choice/Optional/Repeat/Parameter), not by the Token arm. -/
theorem c3_token_mismatch_consumes_amended {T : Type} [ParserOutput T]
    (fuel : Nat) (tok u : Token) (rest : List Token) (pc : Nat)
    (output : T) (next next2 : Option (Pattern T))
    (hne : token_eq u tok = false) :
    match_pattern (fuel+2) (.token tok) output next next2 (.mk (u :: rest) pc) =
      some (.done (.error (.parse (ParseError.new u.span (.expected tok u))))
        output (.mk rest (pc+2))) := by
  have hcore : match_pattern_core (fuel+1) (.token tok) output next next2
      (.mk (u :: rest) pc) =
      some (.done (.error (.parse (ParseError.new u.span (.expected tok u))))
        output (.mk rest (pc+2)) false) := by
    simp [match_pattern_core, MacroStream.pop_or_err, MacroStream.pop,
      MacroStream.stream, MacroStream.popped, hne]
  rw [match_pattern_of_core_late _ _ _ _ _ _ _ _ _ hcore]
  rw [validator_hook_error]

/-- C3 (counterexample): `Literal(Ident "x")` against front token `y` fails
with `Expected(x, y)` but the resulting cursor is `⟨[], 2⟩`, not the original
`⟨[y], 0⟩`: the mismatching token is gone and the counter advanced. -/
theorem c3_token_mismatch_cursor_counterexample :
    match_pattern 3 (.token (.ident "x" 0)) (AcceptOut.mk 0) Option.none Option.none
      (.mk [.ident "y" 5] 0) =
      some (.done (.error (.parse (ParseError.new 5 (.expected (.ident "x" 0) (.ident "y" 5)))))
        (AcceptOut.mk 0) (.mk [] 2))
    ∧ MacroStream.mk [] 2 ≠ MacroStream.mk [.ident "y" 5] 0 :=
  ⟨rfl, by intro hc; injection hc with h1 h2; exact List.noConfusion h1⟩

/-- C3 (witness): the amended statement applied to `Literal(Ident "x")` against
front token `Ident "y"`. -/
theorem c3_token_mismatch_witness :
    token_eq (.ident "y" 5) (.ident "x" 0) = false
    ∧ match_pattern 5 (.token (.ident "x" 0)) (AcceptOut.mk 0) Option.none Option.none
        (.mk [.ident "y" 5] 0) =
        some (.done (.error (.parse (ParseError.new 5 (.expected (.ident "x" 0) (.ident "y" 5)))))
          (AcceptOut.mk 0) (.mk [] 2)) :=
  ⟨rfl, c3_token_mismatch_consumes_amended 3 (.ident "x" 0) (.ident "y" 5) [] 0
    (AcceptOut.mk 0) Option.none Option.none rfl⟩

/-- C4 (code bug): a one-or-more repetition whose body fails on the very first
iteration returns the body's own error (here `Expected(x, y)`), not
`ExpectedRepetition`: the `return (Err(e), output)` at `pattern.rs` line 411
makes the `ExpectedRepetition` branch at lines 431-435 unreachable. -/
theorem c4_one_or_more_zero_reps_body_error :
    match_pattern 9 (.oneOrMore [.token (.ident "x" 0)] false) (AcceptOut.mk 0)
      Option.none Option.none (.mk [.ident "y" 7] 0) =
      some (.done (.error (.parse (ParseError.new 7 (.expected (.ident "x" 0) (.ident "y" 7)))))
        (AcceptOut.mk 0) (.mk [.ident "y" 7] 0))
    ∧ ParseErrorKind.expected (.ident "x" 0) (.ident "y" 7) ≠ ParseErrorKind.expectedRepetition :=
  ⟨rfl, fun hk => ParseErrorKind.noConfusion hk⟩

/-- C5 (amended): a non-greedy zero-or-more checks the following pattern only
AFTER each successful body repetition, never before the first: if the body
matches once and the following pattern then matches, exactly one repetition is
consumed — even when the following pattern already matched at the start. -/
theorem c5_nongreedy_one_rep_amended {T : Type} [ParserOutput T]
    (fuel : Nat) (body : List (Pattern T)) (nxt : Pattern T) (next2 : Option (Pattern T))
    (output : T) (stream : MacroStream) (m : Match) (o1 : T) (f1 : MacroStream)
    (m2 : Match) (o2 : T) (f2 : MacroStream)
    (hnv : is_validator_node nxt = false)
    (hbody : match_patterns fuel output body stream.fork = some (.done (.ok m) o1 f1))
    (hlook : match_pattern fuel nxt o1 Option.none Option.none (stream.unfork f1).fork =
      some (.done (.ok m2) o2 f2)) :
    match_pattern (fuel+3) (.zeroOrMore body false) output (some nxt) next2 stream =
      some (.done (.ok (.many [m])) o2 (stream.unfork f1)) := by
  have hcore : match_pattern_core (fuel+2) (.zeroOrMore body false) output (some nxt)
      next2 stream = some (.done (.ok (.many [m])) o2 (stream.unfork f1) false) := by
    simp only [match_pattern_core]
    rw [next_after_of_not_validator nxt next2 hnv]
    simp only [zero_or_more_loop, hbody, hlook]
    simp [zero_or_more_result]
  rw [match_pattern_of_core_late _ _ _ _ _ _ _ _ _ hcore]
  rw [validator_hook_ok_no_fn _ _ _ _ (is_validator_fn_next_of_not_validator nxt hnv)]

/-- C5 (counterexample): the sequence `[ZeroOrMore([Any], non-greedy),
Literal(Ident "x")]` against the input `x` fails (the repetition consumes the
`x` before ever consulting the lookahead, so the trailing literal hits end of
input) — though the claim's minimal-repetition reading (zero repetitions, since
`x` matches at the start) would succeed. -/
theorem c5_nongreedy_zero_reps_counterexample :
    match_patterns 20 (AcceptOut.mk 0)
      [.zeroOrMore [.any] false, .token (.ident "x" 0)] (.mk [.ident "x" 3] 0) =
      some (.done (.error (.parse (ParseError.new call_site (.unexpectedEndOfInput ""))))
        (AcceptOut.mk 0) (.mk [] 0))
    ∧ MRes.is_err (.done (.error (.parse (ParseError.new call_site (.unexpectedEndOfInput ""))))
        (AcceptOut.mk 0) (.mk [] 0) : MRes AcceptOut) = true :=
  ⟨rfl, rfl⟩

/-- C5 (witness): body `Any`, lookahead `Literal(Ident "x")`, input `x x`:
one repetition is consumed and the repetition stops. -/
theorem c5_nongreedy_witness :
    is_validator_node (.token (.ident "x" 0) : Pattern AcceptOut) = false
    ∧ match_pattern 9 (.zeroOrMore [.any] false) (AcceptOut.mk 0)
        (some (.token (.ident "x" 0))) Option.none (.mk [.ident "x" 1, .ident "x" 2] 0) =
        some (.done (.ok (.many [.many [.one (.ident "x" 1)]])) (AcceptOut.mk 0)
          (.mk [.ident "x" 2] 0)) :=
  ⟨rfl, c5_nongreedy_one_rep_amended 6 [.any] (.token (.ident "x" 0)) Option.none
    (AcceptOut.mk 0) (.mk [.ident "x" 1, .ident "x" 2] 0) (.many [.one (.ident "x" 1)])
    (AcceptOut.mk 0) (.mk [.ident "x" 2] 2) (.one (.ident "x" 2)) (AcceptOut.mk 0)
    (.mk [] 2) rfl rfl rfl⟩

/-- C6 (amended): `match_pattern` on `Optional(g)` never produces an error of
its own: unless the `Optional` is immediately followed by a `Validator`
carrying a predicate (whose rejection becomes `ValidatorFailed`), every
terminating run returns `Ok` (either g's own result or `Match::None`);
a body panic propagates. -/
theorem c6_optional_never_fails_amended {T : Type} [ParserOutput T]
    (fuel : Nat) (g : List (Pattern T)) (output : T) (next next2 : Option (Pattern T))
    (stream : MacroStream) (r : MRes T)
    (hnv : is_validator_fn_next next = false)
    (h : match_pattern (fuel+2) (.optional g) output next next2 stream = some r) :
    (∃ msg, r = .panicked msg) ∨ (∃ m o s, r = .done (.ok m) o s) := by
  rcases match_pattern_cases (fuel+1) _ _ _ _ _ _ h with
    ⟨msg, hc, hr⟩ | ⟨res, o, s, hc, hr⟩ | ⟨res, o, s, hc, hr⟩
  · exact Or.inl ⟨msg, hr⟩
  · rcases optional_core_cases fuel g _ _ _ _ _ hc with ⟨msg, hcc⟩ | ⟨m, o', s', hcc⟩
    · exact CoreRes.noConfusion hcc
    · injection hcc with h1 h2 h3 h4
      exact Bool.noConfusion h4
  · rcases optional_core_cases fuel g _ _ _ _ _ hc with ⟨msg, hcc⟩ | ⟨m, o', s', hcc⟩
    · exact CoreRes.noConfusion hcc
    · injection hcc with h1 h2 h3 h4
      subst h1
      rw [validator_hook_ok_no_fn next m o s hnv] at hr
      exact Or.inr ⟨m, o, s, hr⟩

/-- C6 (counterexample): `Optional([Any])` immediately followed by a
`Validator` whose predicate rejects: `match_pattern` returns a
`ValidatorFailed` error, so "always `Ok`" is false as a statement about all
inputs of `match_pattern`. -/
theorem c6_optional_validator_counterexample :
    match_pattern 9 (.optional [.any]) (AcceptOut.mk 0)
      (some (.validator Option.none (some reject_pred))) Option.none (.mk [.ident "x" 1] 0) =
      some (.done (.error (.parse (ParseError.new call_site (.validatorFailed "reject"))))
        (AcceptOut.mk 0) (.mk [] 0))
    ∧ MRes.is_err (.done (.error (.parse (ParseError.new call_site (.validatorFailed "reject"))))
        (AcceptOut.mk 0) (.mk [] 0) : MRes AcceptOut) = true :=
  ⟨rfl, rfl⟩

/-- C6 (witness): `Optional([Any])` with no following validator, on a
non-empty input: the result is `Ok`. -/
theorem c6_optional_witness :
    is_validator_fn_next (Option.none : Option (Pattern AcceptOut)) = false
    ∧ ((∃ msg, (MRes.done (.ok (.many [.one (.ident "x" 1)])) (AcceptOut.mk 0)
          (.mk [] 0) : MRes AcceptOut) = .panicked msg)
       ∨ (∃ m o s, (MRes.done (.ok (.many [.one (.ident "x" 1)])) (AcceptOut.mk 0)
          (.mk [] 0) : MRes AcceptOut) = .done (.ok m) o s)) :=
  ⟨rfl, c6_optional_never_fails_amended 7 [.any] (AcceptOut.mk 0) Option.none Option.none
    (.mk [.ident "x" 1] 0) (.done (.ok (.many [.one (.ident "x" 1)])) (AcceptOut.mk 0)
    (.mk [] 0)) rfl rfl⟩

/-- C7 (confirmed): `Choice` tries the alternatives in listed order on forks of
the cursor — a first alternative that succeeds is committed and returned no
matter what the later alternatives are; a failing first alternative hands its
threaded output to the remaining alternatives; and an empty alternative list
yields `NoMatchingChoice` at the cursor's current front. -/
theorem c7_choice_ordered_first_success {T : Type} [ParserOutput T]
    (fuel : Nat) (a : List (Pattern T)) (rest : List (List (Pattern T)))
    (output : T) (next next2 : Option (Pattern T)) (stream : MacroStream) :
    (∀ (m : Match) (o : T) (f : MacroStream),
      match_patterns fuel output a stream.fork = some (.done (.ok m) o f) →
      match_pattern (fuel+3) (.choice (a :: rest)) output next next2 stream =
        some (.done (.ok m) o (stream.unfork f)))
    ∧ (∀ (e : MacrosError) (o : T) (f : MacroStream),
        match_patterns fuel output a stream.fork = some (.done (.error e) o f) →
        choice_loop (fuel+1) (a :: rest) output stream = choice_loop fuel rest o stream)
    ∧ match_pattern (fuel+3) (.choice ([] : List (List (Pattern T)))) output next next2 stream =
        some (.done (.error (.parse (ParseError.new (span_of_peek stream) .noMatchingChoice)))
          output stream) := by
  refine ⟨?_, ?_, ?_⟩
  · intro m o f hm
    have hcore : match_pattern_core (fuel+2) (.choice (a :: rest)) output next next2 stream =
        some (.done (.ok m) o (stream.unfork f) true) := by
      simp only [match_pattern_core, choice_loop, hm]
    exact match_pattern_of_core_early _ _ _ _ _ _ _ _ _ hcore
  · intro e o f he
    simp only [choice_loop, he]
  · have hcore : match_pattern_core (fuel+2) (.choice ([] : List (List (Pattern T))))
        output next next2 stream =
        some (.done (.error (.parse (ParseError.new (span_of_peek stream) .noMatchingChoice)))
          output stream false) := by
      simp only [match_pattern_core, choice_loop]
    rw [match_pattern_of_core_late _ _ _ _ _ _ _ _ _ hcore]
    rw [validator_hook_error]

/-- C7 (witness): `Choice([[Any], [Literal(Ident "x")]])` on input `x`: both
alternatives would match, but the committed result is the first's. -/
theorem c7_choice_witness :
    match_pattern 8 (.choice [[.any], [.token (.ident "x" 0)]]) (AcceptOut.mk 0)
      Option.none Option.none (.mk [.ident "x" 3] 0) =
      some (.done (.ok (.many [.one (.ident "x" 3)])) (AcceptOut.mk 0) (.mk [] 0)) :=
  (c7_choice_ordered_first_success 5 [.any] [[.token (.ident "x" 0)]] (AcceptOut.mk 0)
    Option.none Option.none (.mk [.ident "x" 3] 0)).1 (.many [.one (.ident "x" 3)])
    (AcceptOut.mk 0) (.mk [] 2) rfl

/-- C8 (code bug): `pop_or_err` removes one token but increments the
consumed-counter twice (once inside `pop`, once again in its own `map`), so
`popped()` is 2 after a single `pop_or_err` on a fresh stream; `pop` alone
counts 1 per token and `fork` resets the counter to zero. -/
theorem c8_pop_or_err_double_counts :
    ((MacroStream.mk [.ident "x" 0] 0).pop_or_err).2.popped = 2
    ∧ ((MacroStream.mk [.ident "x" 0] 0).pop_or_err).2.stream.length = 0
    ∧ (MacroStream.mk [.ident "x" 0] 0).len = 1
    ∧ ((MacroStream.mk [.ident "x" 0] 0).pop).2.popped = 1
    ∧ ((MacroStream.mk [.ident "x" 0, .ident "y" 1] 5).fork).popped = 0 :=
  ⟨rfl, rfl, rfl, rfl, rfl⟩

/-- C9 (confirmed): pattern-list construction (`stream_to_patterns`) rejects a
`Validator` that is the first node of the sequence or immediately follows
another `Validator` with `InvalidValidatorPosition`, before any matching
happens, and any successfully constructed list satisfies the placement rule. -/
theorem c9_invalid_validator_position {T : Type} :
    (∀ (fuel : Nat) (s : MacroStream) (ps : List (Pattern T)) (s' : MacroStream),
      stream_to_patterns fuel s = some (.ok (ps, s')) → validators_ok ps = true)
    ∧ (∀ (fuel : Nat) (prev : Option (Pattern T)) (acc : List (Pattern T)) (s : MacroStream)
        (cur : Pattern T) (s' : MacroStream),
        pattern_parse fuel s = some (.ok (cur, s')) →
        is_validator_node cur = true →
        prev_forbids_validator prev = true →
        stream_to_patterns_go (fuel+1) prev acc s =
          some (.err (.parse (ParseError.new (span_of_peek s') .invalidValidatorPosition)))) := by
  constructor
  · intro fuel s ps s' h
    cases fuel with
    | zero => simp [stream_to_patterns] at h
    | succ n =>
      simp only [stream_to_patterns] at h
      obtain ⟨tail, htail, hok⟩ := stream_to_patterns_go_ok n Option.none [] s ps s' h
      rw [htail]
      simpa [validators_ok, prev_forbids_validator] using hok
  · intro fuel prev acc s cur s' hparse hval hprev
    have hne : s.is_empty = false := pattern_parse_ok_nonempty fuel s cur s' hparse
    simp [stream_to_patterns_go, hne, hparse, hval, hprev]

/-- C9 (witness): parsing `x` succeeds with a validator-free list; parsing the
two tokens of `{x}=` (a braced group then `=`) yields a `Validator` first in
the sequence, which `stream_to_patterns` rejects with
`InvalidValidatorPosition`. -/
theorem c9_invalid_validator_position_witness :
    validators_ok ([.token (.ident "x" 4)] : List (Pattern AcceptOut)) = true
    ∧ stream_to_patterns_go (T := AcceptOut) 11 Option.none []
        (.mk [.group .brace (.mk [.ident "x" 4] 0) 3, .punctuation '=' .alone 5] 0) =
        some (.err (.parse (ParseError.new (span_of_peek (.mk [] 3))
          .invalidValidatorPosition))) :=
  ⟨(c9_invalid_validator_position (T := AcceptOut)).1 12 (.mk [.ident "x" 4] 0)
      [.token (.ident "x" 4)] (.mk [] 2) rfl,
   (c9_invalid_validator_position (T := AcceptOut)).2 10 Option.none []
      (.mk [.group .brace (.mk [.ident "x" 4] 0) 3, .punctuation '=' .alone 5] 0)
      (.validator (some (.mk [.ident "x" 4] 2)) Option.none) (.mk [] 3) rfl rfl rfl⟩

/-- C10 (confirmed): for a `Parameter(body, name)` whose body matches but whose
`set_match` call errors, `match_pattern` returns that error while the cursor
has already been committed to the fork's remainder — the tokens the body
consumed are not restored. -/
theorem c10_parameter_set_match_error_commits {T : Type} [ParserOutput T]
    (fuel : Nat) (body : List (Pattern T)) (name : String) (ty : MacroStream)
    (output : T) (next next2 : Option (Pattern T)) (stream : MacroStream)
    (m : Match) (o1 : T) (f : MacroStream) (e : MacrosError) (o2 : T)
    (hbody : match_patterns fuel output body stream.fork = some (.done (.ok m) o1 f))
    (hset : ParserOutput.set_match o1 name m = (.error e, o2)) :
    match_pattern (fuel+2) (.parameter body name ty) output next next2 stream =
      some (.done (.error e) o2 (stream.unfork f)) := by
  have hcore : match_pattern_core (fuel+1) (.parameter body name ty) output next next2
      stream = some (.done (.error e) o2 (stream.unfork f) false) := by
    simp only [match_pattern_core, hbody, hset]
  rw [match_pattern_of_core_late _ _ _ _ _ _ _ _ _ hcore]
  rw [validator_hook_error]

/-- C10 (witness): `Parameter([Any], "n")` with an always-rejecting sink on
input `x y`: the error is returned and the cursor is `⟨[y], 0⟩` — the `x`
consumed by the body stays consumed. -/
theorem c10_parameter_witness :
    match_pattern 7 (.parameter [.any] "n" MacroStream.new) (RejectOut.mk 0)
      Option.none Option.none (.mk [.ident "x" 1, .ident "y" 2] 0) =
      some (.done (.error (.user "rejected by sink")) (RejectOut.mk 0) (.mk [.ident "y" 2] 0)) :=
  c10_parameter_set_match_error_commits 5 [.any] "n" MacroStream.new (RejectOut.mk 0)
    Option.none Option.none (.mk [.ident "x" 1, .ident "y" 2] 0) (.many [.one (.ident "x" 1)])
    (RejectOut.mk 0) (.mk [.ident "y" 2] 2) (.user "rejected by sink") (RejectOut.mk 0)
    rfl rfl

end Macros
